import Mathlib

/-!
Verification of the network definitions in
`reincarnating_rl/persistence_networks.py`.

Tensors are modelled as rational-valued functions indexed by `Fin`
(`Vec`, `Mat`).  The Python file builds its networks on primitives of
the external numerical stack (jax, flax, numpy, dopamine); primitives
that have no exact rational counterpart (floating point `exp`, `cos`,
`pi`, and pseudo-random sampling) are fields of `FrameworkOps`, and
every theorem quantifies over them.  Layer primitives whose mathematics
is standard (dense layers, relu, softmax, elementwise scaling) are
defined concretely.  Flattening (`reshape((-1))`) is the identity on
the flat vector model, and the flax `nn.Conv` layers of the Nature
network appear as arbitrary functions with their parameters folded in,
since no claim depends on the convolution arithmetic itself.
-/

namespace ReincarnatingRL

/-- Flat rational tensor of length `n`. -/
abbrev Vec (n : ℕ) : Type := Fin n → ℚ

/-- Rational tensor of shape `(m, n)`. -/
abbrev Mat (m n : ℕ) : Type := Fin m → Fin n → ℚ

/-- Primitives supplied by the external numerical framework.
`exp`, `cosQ` and `piQ` model the floating point `jnp.exp`, `jnp.cos`
and `onp.pi`.  `noiseW key r c` and `noiseB key r` model the factorised
gaussian noise entries that the dopamine `NoisyNetwork` derives from
the PRNG `key` via `jax.random.normal`.  `uniform key i j` models
`jax.random.uniform(key, shape)[i, j]`, whose documented range is the
half-open interval `[0, 1)` (fields `uniform_nonneg` and
`uniform_lt_one`). -/
structure FrameworkOps where
  exp : ℚ → ℚ
  cosQ : ℚ → ℚ
  piQ : ℚ
  noiseW : ℕ → ℕ → ℕ → ℚ
  noiseB : ℕ → ℕ → ℚ
  uniform : ℕ → ℕ → ℕ → ℚ
  uniform_nonneg : ∀ key i j, 0 ≤ uniform key i j
  uniform_lt_one : ∀ key i j, uniform key i j < 1

/-- Model of `preprocess_atari_inputs`: cast to float32 (the identity on
the rational model) and divide by 255. -/
def preprocess_atari_inputs {n : ℕ} (x : Vec n) : Vec n :=
  fun i => x i / 255

/-- Elementwise `nn.relu`. -/
def relu {n : ℕ} (v : Vec n) : Vec n :=
  fun i => max 0 (v i)

/-- Flax `nn.Dense`: affine map with kernel `w` and bias `b`. -/
def dense {i o : ℕ} (w : Mat o i) (b : Vec o) (x : Vec i) : Vec o :=
  fun j => (∑ k, w j k * x k) + b j

/-- Row of `nn.softmax` over the last axis: the exponential of each
entry divided by the sum of the exponentials of the row.  The
`max`-subtraction performed by the floating point implementation for
numerical stability is algebraically neutral over exact arithmetic. -/
def softmaxRow (ops : FrameworkOps) {n : ℕ} (v : Vec n) : Vec n :=
  fun i => ops.exp (v i) / ∑ j, ops.exp (v j)

/-- Parameters of one `networks.feature_layer` module: kernel and bias
means `w`, `b`, and the sigma parameters used by the noisy branch. -/
structure LinParams (i o : ℕ) where
  w : Mat o i
  b : Vec o
  wSigma : Mat o i
  bSigma : Vec o

/-- Dopamine `NoisyNetwork` forward pass out of eval mode: an affine map
whose effective kernel and bias are the means perturbed by the sigma
parameters times the key-derived noise. -/
def noisyDense (ops : FrameworkOps) (key : ℕ) {i o : ℕ} (p : LinParams i o) (x : Vec i) : Vec o :=
  fun j =>
    (∑ k, (p.w j k + p.wSigma j k * ops.noiseW key j.val k.val) * x k)
      + (p.b j + p.bSigma j * ops.noiseB key j.val)

/-- Model of `networks.feature_layer(key, noisy, eval_mode)` applied to
one input: with `noisy` and not `eval_mode` it is the `NoisyNetwork`
with noise drawn from `key`; in eval mode the sampled noise is zero, so
the layer degenerates to the plain affine map; without `noisy` it is a
plain `nn.Dense`, which ignores the key and the eval flag. -/
def featureApply (ops : FrameworkOps) (noisy evalMode : Bool) (key : ℕ)
    {i o : ℕ} (p : LinParams i o) (x : Vec i) : Vec o :=
  if noisy then
    (if evalMode then dense p.w p.b x else noisyDense ops key p x)
  else dense p.w p.b x

/-- Modelled from the spec: `impala_networks.Stack` is code of this
repository that is not under `src/`.  The spec describes the encoder as
a "stack of configurable residual convolutional blocks producing a
feature vector", so the composed stack loop is modelled as an arbitrary
function between feature vectors. -/
def StackFn (n L : ℕ) : Type :=
  Vec n → Vec L

/-- Model of `ImpalaEncoder.__call__`: the stack loop followed by the
final `nn.relu`. -/
def ImpalaEncoder_call {n L : ℕ} (stackBlocks : StackFn n L) (x : Vec n) : Vec L :=
  relu (stackBlocks x)

lemma reshape_index_lt {A Z : ℕ} (a : Fin A) (z : Fin Z) :
    a.val * Z + z.val < A * Z := by
  have h1 : a.val + 1 ≤ A := a.isLt
  have h2 : (a.val + 1) * Z ≤ A * Z := Nat.mul_le_mul_right _ h1
  have h3 : (a.val + 1) * Z = a.val * Z + Z := by ring
  have h4 : z.val < Z := z.isLt
  omega

/-- Row-major `reshape` of a flat vector of length `A * Z` to shape
`(A, Z)`, as in numpy. -/
def reshape2 {A Z : ℕ} (v : Vec (A * Z)) : Mat A Z :=
  fun a z => v ⟨a.val * Z + z.val, reshape_index_lt a z⟩

/-- Model of the namedtuple
`NetworkType = collections.namedtuple('dqn_network', ['q_values'])`. -/
structure NetworkType (A : ℕ) where
  q_values : Vec A

/-- Output of `ImpalaRainbowNetwork.__call__`: either
`atari_lib.RainbowNetworkType(q_values, logits, probabilities)` in the
distributional case or `atari_lib.DQNNetworkType(q_values)` otherwise. -/
inductive RainbowNetworkOutput (A Z : ℕ) where
  | rainbowNetworkType (q_values : Vec A) (logits : Mat A Z) (probabilities : Mat A Z)
  | dqnNetworkType (q_values : Vec A)

/-- Model of `atari_lib.ImplicitQuantileNetworkType(quantile_values, quantiles)`. -/
structure ImplicitQuantileNetworkType (numQ A : ℕ) where
  quantile_values : Mat numQ A
  quantiles : Mat numQ 1

/-- The `q_values` component of either constructor of
`RainbowNetworkOutput`. -/
def rainbowQValues {A Z : ℕ} : RainbowNetworkOutput A Z → Vec A
  | .rainbowNetworkType q _ _ => q
  | .dqnNetworkType q => q

/-- Parameters of `NatureResidualDQNNetwork`.  The three `nn.Conv`
layers are primitives of the external framework and appear as arbitrary
functions with their (xavier-initialised) parameters folded in; the two
dense layers and the residual scaling vector `alpha` are explicit. -/
structure NatureParams (n d1 d2 d3 A : ℕ) where
  conv1 : Vec n → Vec d1
  conv2 : Vec d1 → Vec d2
  conv3 : Vec d2 → Vec d3
  w512 : Mat 512 d3
  b512 : Vec 512
  alpha : Vec A
  wOut : Mat A 512
  bOut : Vec A

/-- Model of `nn.initializers.zeros` for a length `A` parameter. -/
def zerosInit (A : ℕ) : Vec A :=
  fun _ => 0

/-- Penultimate features of `NatureResidualDQNNetwork.__call__`: the
optional preprocessing, the three convolution plus relu stages, the
flatten (identity on the flat model), the 512 dense layer and the final
relu. -/
def natureFeatures {n d1 d2 d3 A : ℕ} (p : NatureParams n d1 d2 d3 A)
    (inputsPreprocessed : Bool) (x : Vec n) : Vec 512 :=
  relu (dense p.w512 p.b512
    (relu (p.conv3 (relu (p.conv2 (relu (p.conv1
      (if inputsPreprocessed then x else preprocess_atari_inputs x))))))))

/-- Model of `NatureResidualDQNNetwork.__call__`: the final dense layer
output scaled elementwise by the residual parameter `alpha`. -/
def NatureResidualDQNNetwork_call {n d1 d2 d3 A : ℕ}
    (p : NatureParams n d1 d2 d3 A) (inputsPreprocessed : Bool) (x : Vec n) :
    NetworkType A :=
  ⟨fun a => dense p.wOut p.bOut (natureFeatures p inputsPreprocessed x) a * p.alpha a⟩

/-- Parameters of `ImpalaRainbowNetwork`: the encoder stackBlocks and the
four possible `feature_layer` modules (hidden layer, advantage stream,
value stream, and the single stream of the non-dueling branch). -/
structure RainbowParams (n L A Z : ℕ) where
  stackBlocks : StackFn n L
  feat : LinParams L 512
  featAdv : LinParams 512 (A * Z)
  featVal : LinParams 512 Z
  featPlain : LinParams 512 (A * Z)

/-- Hidden 512 vector of `ImpalaRainbowNetwork.__call__`: encoder,
flatten (identity on the flat model), feature layer of width 512, relu. -/
def rainbowHidden {n L A Z : ℕ} (ops : FrameworkOps) (p : RainbowParams n L A Z)
    (noisy evalMode : Bool) (key : ℕ) (x : Vec n) : Vec 512 :=
  relu (featureApply ops noisy evalMode key p.feat (ImpalaEncoder_call p.stackBlocks x))

/-- Advantage stream of the dueling branch, reshaped row-major to
`(num_actions, num_atoms)`. -/
def rainbowAdv {n L A Z : ℕ} (ops : FrameworkOps) (p : RainbowParams n L A Z)
    (noisy evalMode : Bool) (key : ℕ) (x : Vec n) : Mat A Z :=
  reshape2 (featureApply ops noisy evalMode key p.featAdv
    (rainbowHidden ops p noisy evalMode key x))

/-- Value stream of the dueling branch.  The source reshapes it to
`(1, num_atoms)`; the model keeps the flat `num_atoms` vector, so
`value[0, z]` is `rainbowValue … z`. -/
def rainbowValue {n L A Z : ℕ} (ops : FrameworkOps) (p : RainbowParams n L A Z)
    (noisy evalMode : Bool) (key : ℕ) (x : Vec n) : Vec Z :=
  featureApply ops noisy evalMode key p.featVal
    (rainbowHidden ops p noisy evalMode key x)

/-- Logits of `ImpalaRainbowNetwork.__call__`: with dueling, the value
stream plus the mean-centered advantage stream, where
`jnp.mean(adv, axis=0, keepdims=True)` is the per-atom sum over actions
divided by the number of actions; otherwise the single stream reshaped
to `(num_actions, num_atoms)`. -/
def rainbowLogits {n L A Z : ℕ} (ops : FrameworkOps) (p : RainbowParams n L A Z)
    (noisy dueling evalMode : Bool) (key : ℕ) (x : Vec n) : Mat A Z :=
  if dueling then
    fun a z =>
      rainbowValue ops p noisy evalMode key x z +
        (rainbowAdv ops p noisy evalMode key x a z -
          (∑ b, rainbowAdv ops p noisy evalMode key x b z) / (A : ℚ))
  else
    reshape2 (featureApply ops noisy evalMode key p.featPlain
      (rainbowHidden ops p noisy evalMode key x))

/-- Model of `ImpalaRainbowNetwork.__call__`.  When `key` is `None` the
source seeds the PRNG from the wall clock:
`key = jax.random.PRNGKey(int(time.time() * 1e6))`; the embedding
therefore takes the current microsecond timestamp `timeMicros` as an
explicit ambient input and models `PRNGKey` as the identity on seeds. -/
def ImpalaRainbowNetwork_call {n L A Z : ℕ} (ops : FrameworkOps)
    (p : RainbowParams n L A Z)
    (noisy dueling distributional inputsPreprocessed : Bool)
    (x : Vec n) (support : Vec Z) (evalMode : Bool) (key : Option ℕ)
    (timeMicros : ℕ) : RainbowNetworkOutput A Z :=
  let k := key.getD timeMicros
  let x1 := if inputsPreprocessed then x else preprocess_atari_inputs x
  let logits := rainbowLogits ops p noisy dueling evalMode k x1
  if distributional then
    let probabilities := fun a => softmaxRow ops (logits a)
    RainbowNetworkOutput.rainbowNetworkType
      (fun a => ∑ z, support z * probabilities a z) logits probabilities
  else
    RainbowNetworkOutput.dqnNetworkType (fun a => ∑ z, logits a z)

/-- Parameters of `ImpalaImplicitQuantileNetwork`: encoder stackBlocks, the
quantile embedding dense layer (`features=state_vector_length`), the 512
dense layer and the final `num_actions` dense layer. -/
structure IQNParams (n L dEmb A : ℕ) where
  stackBlocks : StackFn n L
  wEmb : Mat L dEmb
  bEmb : Vec L
  w512 : Mat 512 L
  b512 : Vec 512
  wOut : Mat A 512
  bOut : Vec A

/-- Sampled quantiles `jax.random.uniform(rng, shape=[num_quantiles, 1])`. -/
def iqnQuantiles (ops : FrameworkOps) (rng numQ : ℕ) : Mat numQ 1 :=
  fun q _ => ops.uniform rng q.val 0

/-- Encoder feature vector of `ImpalaImplicitQuantileNetwork.__call__`
after the optional preprocessing and the flatten (identity on the flat
model). -/
def iqnFeat {n L dEmb A : ℕ} (p : IQNParams n L dEmb A)
    (inputsPreprocessed : Bool) (x : Vec n) : Vec L :=
  ImpalaEncoder_call p.stackBlocks (if inputsPreprocessed then x else preprocess_atari_inputs x)

/-- Cosine basis embedding of the sampled quantiles: entry `(q, i)` is
`cos((i + 1) * pi * tau_q)`, the tile of the quantile column to width
`quantile_embedding_dim` multiplied by `arange(1, dim + 1) * pi` and
passed through `jnp.cos`. -/
def iqnCosEmbedding (ops : FrameworkOps) {numQ : ℕ} (quantiles : Mat numQ 1)
    (dEmb : ℕ) (q : Fin numQ) : Vec dEmb :=
  fun i => ops.cosQ (((i.val : ℚ) + 1) * ops.piQ * quantiles q 0)

/-- Quantile embedding after the dense layer of width
`state_vector_length` and the relu. -/
def iqnQuantileNet (ops : FrameworkOps) {numQ L dEmb : ℕ}
    (wEmb : Mat L dEmb) (bEmb : Vec L) (quantiles : Mat numQ 1)
    (q : Fin numQ) : Vec L :=
  relu (dense wEmb bEmb (iqnCosEmbedding ops quantiles dEmb q))

/-- Elementwise product of the tiled encoder features
(`jnp.tile(x, [num_quantiles, 1])`, whose every row is the feature
vector) with the quantile embedding. -/
def iqnMerged (ops : FrameworkOps) {n L dEmb A numQ : ℕ}
    (p : IQNParams n L dEmb A) (inputsPreprocessed : Bool) (x : Vec n)
    (rng : ℕ) (q : Fin numQ) : Vec L :=
  fun i =>
    iqnFeat p inputsPreprocessed x i *
      iqnQuantileNet ops p.wEmb p.bEmb (iqnQuantiles ops rng numQ) q i

/-- Per-quantile value estimates: the merged vector through the 512
dense layer, relu, and the final `num_actions` dense layer. -/
def iqnQuantileValues (ops : FrameworkOps) {n L dEmb A numQ : ℕ}
    (p : IQNParams n L dEmb A) (inputsPreprocessed : Bool) (x : Vec n)
    (rng : ℕ) (q : Fin numQ) : Vec A :=
  dense p.wOut p.bOut (relu (dense p.w512 p.b512
    (iqnMerged ops p inputsPreprocessed x rng q)))

/-- Model of `ImpalaImplicitQuantileNetwork.__call__`. -/
def ImpalaImplicitQuantileNetwork_call (ops : FrameworkOps)
    {n L dEmb A : ℕ} (p : IQNParams n L dEmb A) (inputsPreprocessed : Bool)
    (x : Vec n) (numQuantiles rng : ℕ) :
    ImplicitQuantileNetworkType numQuantiles A :=
  ⟨fun q a => iqnQuantileValues ops p inputsPreprocessed x rng q a,
    iqnQuantiles ops rng numQuantiles⟩

/-- Nested configuration record `config.patches`. -/
structure PatchesConfig where
  size : ℕ × ℕ

/-- Nested configuration record `config.transformer`. -/
structure TransformerConfig where
  mlp_dim : ℕ
  num_heads : ℕ
  num_layers : ℕ
  attention_dropout_rate : ℚ
  dropout_rate : ℚ

/-- Shape of the `ml_collections.ConfigDict` built by
`get_atari_b14_config`. -/
structure AtariB14Config where
  name : String
  patches : PatchesConfig
  hidden_size : ℕ
  transformer : TransformerConfig
  classifier : String
  representation_size : Option ℕ

/-- Model of `get_atari_b14_config`: a constant, so every call returns
the same record. -/
def get_atari_b14_config : AtariB14Config :=
  { name := "ViT-B_14"
    patches := { size := (14, 14) }
    hidden_size := 768
    transformer :=
      { mlp_dim := 3072
        num_heads := 12
        num_layers := 12
        attention_dropout_rate := 0
        dropout_rate := 0 }
    classifier := "token"
    representation_size := none }

/-- Simple concrete framework instantiation used by witnesses. -/
def ops0 : FrameworkOps where
  exp := fun _ => 1
  cosQ := fun _ => 1
  piQ := 3
  noiseW := fun _ _ _ => 0
  noiseB := fun _ _ => 0
  uniform := fun _ _ _ => 1 / 2
  uniform_nonneg := fun _ _ _ => by norm_num
  uniform_lt_one := fun _ _ _ => by norm_num

/-- All-zero feature layer parameters. -/
def linZero (i o : ℕ) : LinParams i o :=
  ⟨fun _ _ => 0, fun _ => 0, fun _ _ => 0, fun _ => 0⟩

/-- Concrete rainbow parameters used by witnesses. -/
def pRainbow0 : RainbowParams 1 1 1 1 :=
  ⟨fun _ _ => 0, linZero 1 512, linZero 512 1, linZero 512 1, linZero 512 1⟩

/-- C1 (amended): a forward pass of `ImpalaRainbowNetwork` with an
explicitly provided PRNG key is a pure deterministic function of its
inputs: the wall-clock timestamp is ignored, so two applications with
the same observation, support, eval flag, parameters, framework
primitives and the same non-`None` key return identical output records. -/
theorem rainbow_deterministic_with_explicit_key {n L A Z : ℕ}
    (ops : FrameworkOps) (p : RainbowParams n L A Z)
    (noisy dueling distributional ip : Bool) (x : Vec n) (support : Vec Z)
    (evalMode : Bool) (k : ℕ) (t t' : ℕ) :
    ImpalaRainbowNetwork_call ops p noisy dueling distributional ip x support
        evalMode (some k) t =
      ImpalaRainbowNetwork_call ops p noisy dueling distributional ip x support
        evalMode (some k) t' := rfl

/-- C2: with `distributional = True` the returned probabilities are the
softmax of the logits over atoms and `q_values a` is the support-weighted
sum of the probabilities row; with `distributional = False`, `q_values a`
is the plain sum of the logits row over atoms. -/
theorem rainbow_distributional_output {n L A Z : ℕ} (ops : FrameworkOps)
    (p : RainbowParams n L A Z) (noisy dueling ip : Bool)
    (x : Vec n) (support : Vec Z) (em : Bool) (key : Option ℕ) (t : ℕ) :
    (ImpalaRainbowNetwork_call ops p noisy dueling true ip x support em key t =
      RainbowNetworkOutput.rainbowNetworkType
        (fun a => ∑ z, support z *
          softmaxRow ops (rainbowLogits ops p noisy dueling em (key.getD t)
            (if ip then x else preprocess_atari_inputs x) a) z)
        (rainbowLogits ops p noisy dueling em (key.getD t)
          (if ip then x else preprocess_atari_inputs x))
        (fun a => softmaxRow ops (rainbowLogits ops p noisy dueling em (key.getD t)
          (if ip then x else preprocess_atari_inputs x) a))) ∧
    (ImpalaRainbowNetwork_call ops p noisy dueling false ip x support em key t =
      RainbowNetworkOutput.dqnNetworkType
        (fun a => ∑ z, rainbowLogits ops p noisy dueling em (key.getD t)
          (if ip then x else preprocess_atari_inputs x) a z)) :=
  ⟨rfl, rfl⟩

lemma mean_center {A : ℕ} (hA : 0 < A) (V : ℚ) (f : Fin A → ℚ) :
    (∑ a, (V + (f a - (∑ b, f b) / (A : ℚ)))) / (A : ℚ) = V := by
  have hAq : (A : ℚ) ≠ 0 := Nat.cast_ne_zero.mpr hA.ne'
  rw [Finset.sum_add_distrib, Finset.sum_sub_distrib, Finset.sum_const,
    Finset.sum_const, Finset.card_univ, Fintype.card_fin, nsmul_eq_mul,
    nsmul_eq_mul]
  field_simp

/-- C3: with `dueling = True` the logits are the value stream plus the
mean-centered advantage stream, and consequently the mean of the logits
over actions recovers the value stream at every atom. -/
theorem rainbow_dueling_mean_center {n L A Z : ℕ} (ops : FrameworkOps)
    (p : RainbowParams n L A Z) (noisy em : Bool) (key : ℕ)
    (x : Vec n) (hA : 0 < A) :
    (∀ (a : Fin A) (z : Fin Z),
      rainbowLogits ops p noisy true em key x a z =
        rainbowValue ops p noisy em key x z +
          (rainbowAdv ops p noisy em key x a z -
            (∑ b, rainbowAdv ops p noisy em key x b z) / (A : ℚ))) ∧
    (∀ z : Fin Z,
      (∑ a, rainbowLogits ops p noisy true em key x a z) / (A : ℚ) =
        rainbowValue ops p noisy em key x z) := by
  constructor
  · intro a z
    rfl
  · intro z
    have h : ∀ a : Fin A, rainbowLogits ops p noisy true em key x a z =
        rainbowValue ops p noisy em key x z +
          (rainbowAdv ops p noisy em key x a z -
            (∑ b, rainbowAdv ops p noisy em key x b z) / (A : ℚ)) :=
      fun a => rfl
    rw [Finset.sum_congr rfl (fun a _ => h a)]
    exact mean_center hA _ _

/-- Witness for the mean-centering theorem at a concrete one-action,
one-atom network. -/
theorem rainbow_dueling_mean_center_witness :
    (∑ a : Fin 1, rainbowLogits ops0 pRainbow0 true true false 0
        (fun _ => 0) a 0) / ((1 : ℕ) : ℚ) =
      rainbowValue ops0 pRainbow0 true false 0 (fun _ => 0) 0 :=
  (rainbow_dueling_mean_center ops0 pRainbow0 true false 0 (fun _ => 0)
    (by norm_num)).2 0

/-- C4: the IQN forward pass samples the quantiles with
`jax.random.uniform`, embeds them through the cosine basis
`cos((i + 1) * pi * tau)`, a dense layer and a relu, multiplies the
embedding elementwise with the tiled encoder features, and returns the
`(num_quantiles, num_actions)` value estimates together with the sampled
quantiles. -/
theorem iqn_pipeline {n L dEmb A : ℕ} (ops : FrameworkOps)
    (p : IQNParams n L dEmb A) (ip : Bool) (x : Vec n) (numQ rng : ℕ) :
    (ImpalaImplicitQuantileNetwork_call ops p ip x numQ rng =
      ⟨fun q a => iqnQuantileValues ops p ip x rng q a,
        iqnQuantiles ops rng numQ⟩) ∧
    (∀ (q : Fin numQ) (j : Fin 1),
      iqnQuantiles ops rng numQ q j = ops.uniform rng q.val 0) ∧
    (∀ (q : Fin numQ) (i : Fin dEmb),
      iqnCosEmbedding ops (iqnQuantiles ops rng numQ) dEmb q i =
        ops.cosQ (((i.val : ℚ) + 1) * ops.piQ * iqnQuantiles ops rng numQ q 0)) ∧
    (∀ (q : Fin numQ) (i : Fin L),
      iqnQuantileNet ops p.wEmb p.bEmb (iqnQuantiles ops rng numQ) q i =
        max 0 (dense p.wEmb p.bEmb
          (iqnCosEmbedding ops (iqnQuantiles ops rng numQ) dEmb q) i)) ∧
    (∀ (q : Fin numQ) (i : Fin L),
      iqnMerged ops p ip x rng q i =
        iqnFeat p ip x i *
          iqnQuantileNet ops p.wEmb p.bEmb (iqnQuantiles ops rng numQ) q i) ∧
    (∀ (q : Fin numQ) (a : Fin A),
      iqnQuantileValues ops p ip x rng q a =
        dense p.wOut p.bOut (relu (dense p.w512 p.b512
          (iqnMerged ops p ip x rng q))) a) :=
  ⟨rfl, fun _ _ => rfl, fun _ _ => rfl, fun _ _ => rfl, fun _ _ => rfl,
    fun _ _ => rfl⟩

/-- C6: the Nature network returns the final dense layer output scaled
elementwise by the residual parameter `alpha`. -/
theorem nature_qvalues_residual_scaling {n d1 d2 d3 A : ℕ}
    (p : NatureParams n d1 d2 d3 A) (ip : Bool) (x : Vec n) (a : Fin A) :
    (NatureResidualDQNNetwork_call p ip x).q_values a =
      dense p.wOut p.bOut (natureFeatures p ip x) a * p.alpha a := rfl

/-- C9: alpha is initialised with `nn.initializers.zeros`, so a freshly
initialised Nature network returns all-zero q_values whatever the random
initialisation of the convolutional and dense layers. -/
theorem nature_fresh_init_qvalues_zero {n d1 d2 d3 A : ℕ}
    (conv1 : Vec n → Vec d1) (conv2 : Vec d1 → Vec d2)
    (conv3 : Vec d2 → Vec d3) (w512 : Mat 512 d3) (b512 : Vec 512)
    (wOut : Mat A 512) (bOut : Vec A) (ip : Bool) (x : Vec n) (a : Fin A) :
    (NatureResidualDQNNetwork_call
        ⟨conv1, conv2, conv3, w512, b512, zerosInit A, wOut, bOut⟩
        ip x).q_values a = 0 := by
  simp [NatureResidualDQNNetwork_call, zerosInit]

/-- C8: `get_atari_b14_config` returns the ViT-B/16 configuration with a
14x14 patch size; the function is a constant, so every call returns the
same record. -/
theorem atari_b14_config_values :
    get_atari_b14_config.name = "ViT-B_14" ∧
    get_atari_b14_config.patches.size = (14, 14) ∧
    get_atari_b14_config.hidden_size = 768 ∧
    get_atari_b14_config.transformer.mlp_dim = 3072 ∧
    get_atari_b14_config.transformer.num_heads = 12 ∧
    get_atari_b14_config.transformer.num_layers = 12 ∧
    get_atari_b14_config.transformer.attention_dropout_rate = 0 ∧
    get_atari_b14_config.transformer.dropout_rate = 0 ∧
    get_atari_b14_config.classifier = "token" ∧
    get_atari_b14_config.representation_size = none :=
  ⟨rfl, rfl, rfl, rfl, rfl, rfl, rfl, rfl, rfl, rfl⟩

/-- C10: every entry of the returned quantiles tensor (of shape
`(num_quantiles, 1)` by its type) lies in the half-open interval
`[0, 1)`, the documented range of `jax.random.uniform`. -/
theorem iqn_quantiles_range (ops : FrameworkOps) {n L dEmb A : ℕ}
    (p : IQNParams n L dEmb A) (ip : Bool) (x : Vec n) (numQ rng : ℕ)
    (q : Fin numQ) (j : Fin 1) :
    0 ≤ (ImpalaImplicitQuantileNetwork_call ops p ip x numQ rng).quantiles q j ∧
      (ImpalaImplicitQuantileNetwork_call ops p ip x numQ rng).quantiles q j < 1 :=
  ⟨ops.uniform_nonneg rng q.val 0, ops.uniform_lt_one rng q.val 0⟩

/-- C5: the preprocessor divides by 255 (after a cast that is the
identity on the rational model), maps `[0, 255]` entries into `[0, 1]`,
and each network applies it to the observation exactly when
`inputs_preprocessed` is false, feeding the observation through
unchanged otherwise. -/
theorem preprocess_applied_iff_not_preprocessed :
    (∀ (n : ℕ) (x : Vec n) (i : Fin n),
      preprocess_atari_inputs x i = x i / 255) ∧
    (∀ (n : ℕ) (x : Vec n) (i : Fin n), 0 ≤ x i → x i ≤ 255 →
      0 ≤ preprocess_atari_inputs x i ∧ preprocess_atari_inputs x i ≤ 1) ∧
    (∀ (n d1 d2 d3 A : ℕ) (p : NatureParams n d1 d2 d3 A) (x : Vec n),
      NatureResidualDQNNetwork_call p false x =
        NatureResidualDQNNetwork_call p true (preprocess_atari_inputs x)) ∧
    (∀ (n L A Z : ℕ) (ops : FrameworkOps) (p : RainbowParams n L A Z)
        (noisy dueling distributional : Bool) (x : Vec n) (s : Vec Z)
        (em : Bool) (key : Option ℕ) (t : ℕ),
      ImpalaRainbowNetwork_call ops p noisy dueling distributional false
          x s em key t =
        ImpalaRainbowNetwork_call ops p noisy dueling distributional true
          (preprocess_atari_inputs x) s em key t) ∧
    (∀ (n L dEmb A : ℕ) (ops : FrameworkOps) (p : IQNParams n L dEmb A)
        (x : Vec n) (numQ rng : ℕ),
      ImpalaImplicitQuantileNetwork_call ops p false x numQ rng =
        ImpalaImplicitQuantileNetwork_call ops p true
          (preprocess_atari_inputs x) numQ rng) := by
  refine ⟨fun n x i => rfl, fun n x i h0 h255 => ⟨?_, ?_⟩,
    fun _ _ _ _ _ p x => rfl, fun _ _ _ _ ops p _ _ _ x s _ _ _ => rfl,
    fun _ _ _ _ ops p x _ _ => rfl⟩
  · exact div_nonneg h0 (by norm_num)
  · have hrw : preprocess_atari_inputs x i = x i / 255 := rfl
    rw [hrw]
    exact (div_le_one (by norm_num)).mpr h255

/-- Witness: the range part of the preprocessing theorem at the constant
observation 100. -/
theorem preprocess_applied_iff_not_preprocessed_witness :
    0 ≤ preprocess_atari_inputs (fun _ : Fin 1 => 100) 0 ∧
      preprocess_atari_inputs (fun _ : Fin 1 => 100) 0 ≤ 1 :=
  preprocess_applied_iff_not_preprocessed.2.1 1 (fun _ => 100) 0
    (by norm_num) (by norm_num)

/-- C7: every forward pass returns exactly one of the three output
records: the Nature network a `NetworkType` with one `q_values` field,
the rainbow network a `RainbowNetworkType` record exactly when
`distributional` is true and a `DQNNetworkType` record exactly when it
is false, and the IQN network an `ImplicitQuantileNetworkType`. -/
theorem output_record_shapes :
    (∀ (n d1 d2 d3 A : ℕ) (p : NatureParams n d1 d2 d3 A) (ip : Bool)
        (x : Vec n),
      ∃ q, NatureResidualDQNNetwork_call p ip x = NetworkType.mk q) ∧
    (∀ (n L A Z : ℕ) (ops : FrameworkOps) (p : RainbowParams n L A Z)
        (noisy dueling distributional ip : Bool) (x : Vec n) (s : Vec Z)
        (em : Bool) (key : Option ℕ) (t : ℕ),
      ((∃ q l pr, ImpalaRainbowNetwork_call ops p noisy dueling distributional
          ip x s em key t = RainbowNetworkOutput.rainbowNetworkType q l pr) ↔
        distributional = true) ∧
      ((∃ q, ImpalaRainbowNetwork_call ops p noisy dueling distributional
          ip x s em key t = RainbowNetworkOutput.dqnNetworkType q) ↔
        distributional = false)) ∧
    (∀ (n L dEmb A : ℕ) (ops : FrameworkOps) (p : IQNParams n L dEmb A)
        (ip : Bool) (x : Vec n) (numQ rng : ℕ),
      ∃ qv qs, ImpalaImplicitQuantileNetwork_call ops p ip x numQ rng =
        ImplicitQuantileNetworkType.mk qv qs) := by
  refine ⟨fun _ _ _ _ _ p ip x => ⟨_, rfl⟩, ?_,
    fun _ _ _ _ ops p ip x numQ rng => ⟨_, _, rfl⟩⟩
  intro n L A Z ops p noisy dueling distributional ip x s em key t
  cases distributional with
  | true =>
    refine ⟨⟨fun _ => rfl, fun _ => ⟨_, _, _, rfl⟩⟩, ?_, ?_⟩
    · rintro ⟨q, h⟩
      simp [ImpalaRainbowNetwork_call] at h
    · intro h
      simp at h
  | false =>
    refine ⟨⟨?_, ?_⟩, fun _ => rfl, fun _ => ⟨_, rfl⟩⟩
    · rintro ⟨q, l, pr, h⟩
      simp [ImpalaRainbowNetwork_call] at h
    · intro h
      simp at h

/-- Witness: the rainbow network with `distributional = true` returns a
`RainbowNetworkType` record at a concrete instantiation. -/
theorem output_record_shapes_witness :
    ∃ q l pr, ImpalaRainbowNetwork_call ops0 pRainbow0 true true true false
        (fun _ => 0) (fun _ => 0) false (some 0) 0 =
      RainbowNetworkOutput.rainbowNetworkType q l pr :=
  ((output_record_shapes.2.1 1 1 1 1 ops0 pRainbow0 true true true false
    (fun _ => 0) (fun _ => 0) false (some 0) 0).1).mpr rfl

/-- Concrete framework instantiation for the default-key counterexample:
the noise that the noisy layers derive from a PRNG key is taken to vary
with the key, reflecting that `jax.random.normal` output depends on the
key. -/
def opsCex : FrameworkOps where
  exp := fun _ => 1
  cosQ := fun _ => 1
  piQ := 3
  noiseW := fun key _ _ => (key : ℚ)
  noiseB := fun key _ => (key : ℚ)
  uniform := fun _ _ _ => 1 / 2
  uniform_nonneg := fun _ _ _ => by norm_num
  uniform_lt_one := fun _ _ _ => by norm_num

/-- Feature layer parameters with zero kernels, zero kernel sigma, and
unit bias sigma, so the output is the bias plus the key-derived noise. -/
def linBiasNoise (i o : ℕ) (bias : ℚ) : LinParams i o :=
  ⟨fun _ _ => 0, fun _ => bias, fun _ _ => 0, fun _ => 1⟩

/-- Concrete rainbow parameters for the default-key counterexample. -/
def pRainbowCex : RainbowParams 1 1 1 1 :=
  ⟨fun _ _ => 0, linBiasNoise 1 512 1, linBiasNoise 512 1 0,
    linBiasNoise 512 1 0, linBiasNoise 512 1 0⟩

/-- C1 (counterexample): two forward passes of a noisy
`ImpalaRainbowNetwork` with identical observation, support, eval flag,
parameters and the default `key = None`, taken at wall-clock timestamps
5 and 6 microseconds, return different output records, because the code
seeds its PRNG from `time.time()` when no key is provided. -/
theorem rainbow_default_key_counterexample :
    rainbowQValues (ImpalaRainbowNetwork_call opsCex pRainbowCex true false
        false false (fun _ => 0) (fun _ => 0) false none 5) 0 ≠
      rainbowQValues (ImpalaRainbowNetwork_call opsCex pRainbowCex true false
        false false (fun _ => 0) (fun _ => 0) false none 6) 0 := by
  have h : ∀ t : ℕ,
      rainbowQValues (ImpalaRainbowNetwork_call opsCex pRainbowCex true false
        false false (fun _ => 0) (fun _ => 0) false none t) 0 = (t : ℚ) := by
    intro t
    simp [ImpalaRainbowNetwork_call, rainbowQValues, rainbowLogits,
      featureApply, noisyDense, reshape2, pRainbowCex, linBiasNoise, opsCex,
      Fin.sum_univ_one]
  simp only [h]
  norm_num

end ReincarnatingRL
